import Mathlib

/-!
Verification of the kivecli command-line client against its design
specification.  The Python sources are shallowly embedded: JSON values
received from the Kive REST API become the inductive type `J`, Python
dicts become association lists, fallible Python code returns
`Except PyErr`, and the successive responses of the network endpoints are
supplied as explicit oracle lists.
-/

set_option autoImplicit false

namespace Kivecli

/-- JSON values as delivered by the Kive REST API (and Python `None`). -/
inductive J where
  | null
  | bool (b : Bool)
  | int (n : Int)
  | str (s : String)
  | arr (elems : List J)
  | obj (fields : List (String × J))
  deriving Repr

/-- A Python dict with string keys, as an association list.  The dicts in
this development come from JSON objects, whose keys are unique, so
first-binding lookup agrees with Python dict lookup. -/
abbrev Dict := List (String × J)

/-- Python `d[k]` / `d.get(k)`: `none` models both a missing key (for `[]`
access the caller turns this into a KeyError) and `d.get` returning None. -/
def dictLookup (d : Dict) (k : String) : Option J :=
  match d with
  | [] => Option.none
  | (k2, v) :: rest => if k2 = k then some v else dictLookup rest k

/-- Python exceptions raised by the embedded code.  `oracleExhausted` is a
modelling artifact only: it is returned when a loop would perform a network
fetch but the finite oracle list supplied to the model has no entry for it
(the real code would simply keep polling); every theorem below hypothesizes
oracles long enough that this case is not reached. -/
inductive PyErr where
  | keyError (key : String)
  | typeError (msg : String)
  | valueError (msg : String)
  | assertionError
  | unboundLocalError (name : String)
  | userError (fmt : String) (args : List String)
  | kiveServerException
  | kiveClientException
  | oracleExhausted
  deriving DecidableEq, Repr

/-- A single-quote character, written via its code point. -/
def sq : String := String.singleton (Char.ofNat 39)

/-- Left curly brace as a string. -/
def lbrace : String := "\x7b"

/-- Right curly brace as a string. -/
def rbrace : String := "\x7d"

/-- Python `str()` on a JSON value.  Scalars are rendered exactly as Python
renders them.  For containers Python falls back to `repr`, which no code
path examined by any claim ever renders (every claim's hypotheses force the
relevant fields to be scalars), so the container cases are abbreviated to a
fixed bracketed placeholder; like Python's repr of a container, the result
is never equal to any Kive state code or numeric literal. -/
def pyStr : J → String
  | .null => "None"
  | .bool true => "True"
  | .bool false => "False"
  | .int n => toString n
  | .str s => s
  | .arr _ => "[...]"
  | .obj _ => lbrace ++ "..." ++ rbrace

/-- Python truthiness of a JSON value (`if not url: break`). -/
def truthy : J → Bool
  | .null => false
  | .bool b => b
  | .int n => n != 0
  | .str s => s != ""
  | .arr xs => !xs.isEmpty
  | .obj fs => !fs.isEmpty

/-! ## Run states (runstate.py / await_containerrrun.py)

`await_containerrrun.py` hard-codes the state-code lists used by the
polling loop. -/

/-- `ACTIVE_STATES = ["N", "S", "L", "R"]` in await_containerrrun.py. -/
def ACTIVE_STATES : List String := ["N", "S", "L", "R"]

/-- `FAIL_STATES = ["X", "F"]` in await_containerrrun.py. -/
def FAIL_STATES : List String := ["X", "F"]

/-- `INTERVAL = 1.0` (seconds) in await_containerrrun.py: the fixed length
of every sleep performed by the poller. -/
def INTERVAL : Nat := 1

/-- `await_containerrun` from await_containerrrun.py (lines 9-59).

The oracle `polls` lists the successive dicts returned by
`kive.endpoints.containerruns.get(runid)`, one per loop iteration; the
loop body begins with a fetch, so the initial `containerrun` argument's
state is never examined and is omitted.  `MAX_WAIT = float("inf")`, so the
`while elapsed < MAX_WAIT` condition is always true and the timeout
(`else`) branch of the Python loop is dead code.

Result: the run dict fetched last together with the number of
`time.sleep(INTERVAL)` calls performed.  A sleep happens after every fetch
whose state is in `ACTIVE_STATES`; fetching a state outside
`ACTIVE_STATES` breaks out of the loop (after logging) and the
last-fetched run is returned.  The `assert isinstance(state_obj, str)`
becomes `assertionError` for non-string states, and a dict without a
`"state"` key raises KeyError. -/
def await_containerrun (polls : List Dict) : Except PyErr (Dict × Nat) :=
  match polls with
  | [] => .error .oracleExhausted
  | containerrun :: rest =>
    match dictLookup containerrun "state" with
    | Option.none => .error (.keyError "state")
    | some stateObj =>
      match stateObj with
      | .str state =>
        if state ∈ ACTIVE_STATES then
          match await_containerrun rest with
          | .ok (run, sleeps) => .ok (run, sleeps + 1)
          | .error e => .error e
        else .ok (containerrun, 0)
      | _ => .error .assertionError

/-! ## Paginated search (findruns.py / finddatasets.py, fetch_paginated_results)

Both modules define the same generator shape: fetch the first page from
the list endpoint, yield each element of `data['results']` converted to
the target entity type, then follow `data.get('next')` while it is truthy.
The `try` block catches exactly `KeyError`, `kiveapi.KiveServerException`
and `kiveapi.KiveClientException` (logged, then `break`); every other
exception propagates out of the generator to the caller. -/

/-- One response of the HTTP oracle: either the JSON dict a fetch
returned, or the fetch raising one of the wrapped client's exceptions. -/
inductive FetchResponse where
  | ok (data : Dict)
  | serverError
  | clientError

/-- Python iteration `for x in v` over a JSON value: lists yield their
elements, strings their characters, dicts their keys; other values raise
TypeError. -/
def pyIter : J → Except PyErr (List J)
  | .arr xs => .ok xs
  | .str s => .ok (s.toList.map (fun c => J.str (String.singleton c)))
  | .obj fs => .ok (fs.map (fun kv => J.str kv.1))
  | _ => .error (.typeError "object is not iterable")

/-- The `for run in data['results']: yield convert(run)` loop body: the
elements successfully converted (and yielded) before the first conversion
failure, together with that failure if any. -/
def convertElems {β : Type} (f : J → Except PyErr β) :
    List J → List β × Option PyErr
  | [] => ([], Option.none)
  | x :: rest =>
    match f x with
    | .error e => ([], some e)
    | .ok b =>
      match convertElems f rest with
      | (bs, err) => (b :: bs, err)

/-- The exceptions caught by the `except` clauses of
`fetch_paginated_results`: `KeyError`, `KiveServerException`,
`KiveClientException`.  Caught exceptions are logged and terminate the
generator normally. -/
def isCaughtByFetchLoop : PyErr → Bool
  | .keyError _ => true
  | .kiveServerException => true
  | .kiveClientException => true
  | _ => false

/-- What iterating the generator produces: the yielded elements in order,
and the exception the generator raised to the caller, if any
(`Option.none` = the iteration ended normally). -/
structure GenResult (β : Type) where
  yielded : List β
  raised : Option PyErr
  deriving Repr

/-- `fetch_paginated_results` from findruns.py lines 47-76 (identically
structured in finddatasets.py lines 51-79; the converter `f` abstracts
`KiveRun.from_json` resp. `Dataset._from_json`, and the oracle lists the
successive responses of the endpoint / `kive.get(url)` fetches).

Per page: `data['results']` (KeyError if absent: caught, logged, break);
iterate it (TypeError for non-iterables: NOT caught); convert and yield
each element (a conversion error ends the page: caught kinds break the
loop silently, others propagate); then `url = data.get('next')` and
`if not url: break`, leaving any remaining oracle entries unfetched. -/
def fetch_paginated_results {β : Type} (f : J → Except PyErr β) :
    List FetchResponse → GenResult β
  | [] => ⟨[], some .oracleExhausted⟩
  | .serverError :: _ => ⟨[], Option.none⟩
  | .clientError :: _ => ⟨[], Option.none⟩
  | .ok data :: rest =>
    match dictLookup data "results" with
    | Option.none => ⟨[], Option.none⟩
    | some resultsVal =>
      match pyIter resultsVal with
      | .error e => ⟨[], some e⟩
      | .ok elems =>
        match convertElems f elems with
        | (bs, some e) =>
          if isCaughtByFetchLoop e then ⟨bs, Option.none⟩ else ⟨bs, some e⟩
        | (bs, Option.none) =>
          match dictLookup data "next" with
          | Option.none => ⟨bs, Option.none⟩
          | some nextVal =>
            if truthy nextVal then
              match fetch_paginated_results f rest with
              | ⟨tail, raised⟩ => ⟨bs ++ tail, raised⟩
            else ⟨bs, Option.none⟩

/-- A non-final response page carrying a nonempty `next` link, as a JSON
dict: `{"results": [...], "next": "<url>"}`. -/
def mkPage (results : List J) (nextUrl : String) : FetchResponse :=
  .ok [("results", J.arr results), ("next", J.str nextUrl)]

/-- A final response page: a `results` array and no `next` key. -/
def mkLastPage (results : List J) : FetchResponse :=
  .ok [("results", J.arr results)]

/-! ## URL (url.py) -/

/-- The scheme/netloc part of `urllib.parse.urlparse`'s result, the only
fields url.py inspects. -/
structure SplitResult where
  scheme : String
  netloc : String
  deriving DecidableEq, Repr

/-- The validated URL wrapper of url.py (a frozen dataclass, so Python
does run its `__post_init__`). -/
structure URL where
  value : String
  deriving DecidableEq, Repr

/-- `URL.__post_init__` (url.py lines 11-27) as a smart constructor.
Parsing is delegated to the standard library's `urlparse`; its result (or
its raising, mapped to the `except Exception` arm) is supplied by the
parameter `up`.  Empty scheme or netloc strings are falsy in Python, hence
the emptiness tests. -/
def URL.make (up : String → Except PyErr SplitResult) (value : String) :
    Except PyErr URL :=
  match up value with
  | .error _ => .error (.userError "Argument %r is not a URL." [value])
  | .ok parsed =>
    if parsed.scheme = "" then
      .error (.userError "Argument %r is missing a scheme to be a URL." [value])
    else if parsed.netloc = "" then
      .error (.userError "Argument %r is missing a netloc to be a URL." [value])
    else .ok ⟨value⟩

/-- `URL.__str__` (url.py lines 29-30). -/
def URL.toStr (u : URL) : String := "<" ++ u.value ++ ">"

/-! ## Id wrappers (runid.py / datasetid.py)

Both classes are `typing.NamedTuple`s.  Python's NamedTuple machinery
never invokes `__post_init__` (that hook belongs to `dataclasses`), so the
validation written in those files is dead code and construction always
succeeds, whatever the value. -/

/-- `RunId` from runid.py. -/
structure RunId where
  value : Int
  deriving DecidableEq, Repr

/-- `RunId(n)`: NamedTuple construction, which just stores the value; no
validation runs (see above), so the result type is total. -/
def RunId.make (value : Int) : RunId := ⟨value⟩

/-- The `__post_init__` method as written in runid.py lines 12-15.  Python
never calls it on a NamedTuple; it is embedded to document what it would
do if it were called. -/
def RunId.post_init (self : RunId) : Except PyErr Unit :=
  if self.value < 0 then
    .error (.typeError "The id of the run cannot be negative.")
  else .ok ()

/-- `DatasetId` from datasetid.py. -/
structure DatasetId where
  value : Int
  deriving DecidableEq, Repr

/-- `DatasetId(n)`: NamedTuple construction; no validation runs. -/
def DatasetId.make (value : Int) : DatasetId := ⟨value⟩

/-- The `__post_init__` method as written in datasetid.py lines 12-15,
likewise never called by Python. -/
def DatasetId.post_init (self : DatasetId) : Except PyErr Unit :=
  if self.value < 0 then
    .error (.typeError "The id of the dataset cannot be negative.")
  else .ok ()

/-! ## MD5Checksum (md5checksum.py) -/

/-- The frozen dataclass wrapper for an MD5 hex digest. -/
structure MD5Checksum where
  value : String
  deriving DecidableEq, Repr

/-! ## Dataset (dataset.py) and finddatasets.py -/

/-- The frozen dataclass `Dataset` of dataset.py. -/
structure Dataset where
  id : DatasetId
  raw : Dict
  name : String
  url : URL
  download_url : URL
  md5checksum : MD5Checksum
  is_purged : Bool

/-- `build_search_query` from finddatasets.py lines 35-48: a dict with the
page size and one `filters[i][key]`/`filters[i][val]` pair per filter
value that is not None (`name` is index 0, `md5` index 1). -/
def build_search_query (name : Option String) (md5 : Option String)
    (page_size : Int) : Dict :=
  [("page_size", J.int page_size)]
    ++ (match name with
        | some v => [("filters[0][key]", J.str "name"),
                     ("filters[0][val]", J.str v)]
        | Option.none => [])
    ++ (match md5 with
        | some v => [("filters[1][key]", J.str "md5"),
                     ("filters[1][val]", J.str v)]
        | Option.none => [])

/-- A Python value passed (or not) for one parameter of
`build_search_query` at a call site. -/
inductive PyVal where
  | pynone
  | pystr (s : String)
  | pymd5 (c : MD5Checksum)
  | pyint (n : Int)
  deriving Repr

/-- Python call binding for `finddatasets.build_search_query(name, md5,
page_size)`: the signature declares no default values, so a call that
leaves any parameter unsupplied raises TypeError before the body runs. -/
def bind_build_search_query (name md5 page_size : Option PyVal) :
    Except PyErr (PyVal × PyVal × PyVal) :=
  match name, md5, page_size with
  | some n, some m, some p => .ok (n, m, p)
  | _, _, _ =>
    .error (.typeError
      "build_search_query() missing required positional arguments")

/-- `Dataset.iterate_isomorphic` (dataset.py lines 62-70): it evaluates
`build_search_query(md5=md5)` with `md5 = self.md5checksum`, supplying
only the keyword argument `md5`; the binding therefore always raises
TypeError, so the subsequent `fetch_paginated_results` call is never
reached (the generator's deferred execution makes no observable
difference, since callers fully consume the iterator). -/
def Dataset.iterate_isomorphic (self : Dataset) :
    Except PyErr (List Dataset) :=
  match h : bind_build_search_query Option.none
      (some (PyVal.pymd5 self.md5checksum)) Option.none with
  | .error e => .error e
  | .ok _ => nomatch h

/-- The `for dataset in datasets` loop of `Dataset.update` (dataset.py
lines 54-60): reject candidates whose checksum differs
(`ValueError("Bad query result", dataset)`), return the first non-purged
candidate, `None` when the candidates run out. -/
def Dataset.updateLoop (self : Dataset) :
    List Dataset → Except PyErr (Option Dataset)
  | [] => .ok Option.none
  | d :: rest =>
    if d.md5checksum ≠ self.md5checksum then
      .error (.valueError "Bad query result")
    else if !d.is_purged then .ok (some d)
    else Dataset.updateLoop self rest

/-- `Dataset.update` (dataset.py lines 48-60): iterate the same-checksum
candidates and return the first that is not purged. -/
def Dataset.update (self : Dataset) : Except PyErr (Option Dataset) :=
  match Dataset.iterate_isomorphic self with
  | .error e => .error e
  | .ok datasets => Dataset.updateLoop self datasets

/-- A concrete purged dataset used to evaluate `Dataset.update`. -/
def exampleDataset : Dataset :=
  { id := DatasetId.make 7
    raw := [("id", J.int 7)]
    name := "example.csv"
    url := ⟨"http://kive.example.com/api/datasets/7/"⟩
    download_url := ⟨"http://kive.example.com/api/datasets/7/download/"⟩
    md5checksum := ⟨"d41d8cd98f00b204e9800998ecf8427e"⟩
    is_purged := true }

/-! ## CLI dispatcher (__main__.py) -/

/-- `PROGRAMS` from __main__.py lines 25-28. -/
def PROGRAMS : List String :=
  ["run", "rerun", "check_rerun", "download", "watch",
   "createzipapp", "zip", "findruns", "findrun", "stop",
   "findbatches", "finddatasets", "findapps", "upload_dataset",
   "makecontainer", "findcontainerfamilies"]

/-- The program list in braces, i.e. the value substituted for the
`programs` placeholder of the message templates. -/
def programsBraced : String :=
  lbrace ++ String.intercalate "," PROGRAMS ++ rbrace

/-- Python `repr` of a string that contains no quote, backslash or control
character: the string wrapped in single quotes.  Every program name and
every test string used below is of that restricted shape, and the theorem
about unrecognized subcommands carries a matching hypothesis. -/
def pyReprStr (s : String) : String := sq ++ s ++ sq

/-- `s` contains only printable ASCII other than a single quote or a
backslash, so that `pyReprStr s` agrees with Python's `repr(s)`. -/
def SimpleReprStr (s : String) : Prop :=
  ∀ c ∈ s.toList, 32 ≤ c.toNat ∧ c.toNat ≤ 126 ∧ c.toNat ≠ 39 ∧ c.toNat ≠ 92

instance (s : String) : Decidable (SimpleReprStr s) := by
  unfold SimpleReprStr; infer_instance

/-- `HELP_MESSAGE` from __main__.py lines 30-41 (after the `.format`
call). -/
def HELP_MESSAGE : String :=
  "usage: kivecli [-h] " ++ programsBraced ++ " [arguments ...]\n\n"
    ++ "Use Kive via CLI.\n\npositional arguments:\n  "
    ++ programsBraced ++ " Program to run.\n"
    ++ "  arguments Arguments to the script.\n\noptions:\n"
    ++ "  -h, --help  show this help message and exit\n"

/-- `PROGRAM_ERROR_MESSAGE` from __main__.py lines 43-46, formatted as in
`main` (lines 65-69) with `choice=repr(program)`, the braced program list
and the comma-separated reprs of the valid choices. -/
def PROGRAM_ERROR_MESSAGE (choice : String) : String :=
  "usage: kivecli [-h] " ++ programsBraced ++ " [arguments ...]\n"
    ++ "kivecli: error: argument program: invalid choice: "
    ++ pyReprStr choice ++ " (choose from "
    ++ String.intercalate ", " (PROGRAMS.map pyReprStr) ++ ")\n"

/-- `PROGRAM_MISSING_MESSAGE` from __main__.py lines 48-51 (after the
`.format` call). -/
def PROGRAM_MISSING_MESSAGE : String :=
  "usage: kivecli [-h] " ++ programsBraced ++ " [arguments ...]\n"
    ++ "kivecli: error: the following arguments are required: "
    ++ "program, arguments\n"

/-- What one invocation of the dispatcher produces: its return value and
the text it printed to stdout resp. stderr. -/
structure ExecResult where
  code : Int
  stdoutText : String
  stderrText : String
  deriving DecidableEq, Repr

/-- `main` from __main__.py lines 54-108.  The chain of `elif` branches
dispatching to each subcommand's `main` is abstracted by `subRun`; a
dispatched subcommand's own printing is outside this function, so dispatch
contributes only the return code.  The final `raise RuntimeError` arm is
unreachable: it is guarded by `program not in PROGRAMS` above it, and the
`elif` chain enumerates every member of `PROGRAMS`. -/
def main (subRun : String → List String → Int) (argv : List String) :
    ExecResult :=
  match argv with
  | [] => ⟨1, "", PROGRAM_MISSING_MESSAGE⟩
  | program :: arguments =>
    if program = "-h" ∨ program = "--help" then ⟨0, HELP_MESSAGE, ""⟩
    else if program ∈ PROGRAMS then ⟨subRun program arguments, "", ""⟩
    else ⟨1, "", PROGRAM_ERROR_MESSAGE program⟩

/-! ## Run submission (runkive.py) -/

/-- runkive.py lines 439-442, the tail of `main`: exit status 0 when the
awaited run's `state` field equals `"C"`, 1 otherwise.  Python's `==`
between a non-string JSON value and `"C"` is simply False, so only a
missing key can raise. -/
def runkive_exit_code (containerrun : Dict) : Except PyErr Int :=
  match dictLookup containerrun "state" with
  | Option.none => .error (.keyError "state")
  | some (J.str s) => .ok (if s = "C" then 0 else 1)
  | some _ => .ok 1

/-- The list comprehension `[x for x in appargs if x["type"] == "I"]`
(runkive.py line 375): KeyError on the first element without a `"type"`
key; a non-string `"type"` value simply compares unequal to `"I"`. -/
def filter_input_appargs : List Dict → Except PyErr (List Dict)
  | [] => .ok []
  | x :: rest =>
    match dictLookup x "type" with
    | Option.none => .error (.keyError "type")
    | some v =>
      match filter_input_appargs rest with
      | .error e => .error e
      | .ok r =>
        match v with
        | J.str s => if s = "I" then .ok (x :: r) else .ok r
        | _ => .ok r

/-- runkive.py lines 373-378: the input-count validation of `main`.  It
runs before the run is submitted (`kive.endpoints.containerruns.post` on
line 415), so its UserError aborts the command with no run created.
`inputs` is `args.inputs or []`, the supplied input files/URLs; only its
length matters here, hence the type parameter. -/
def check_input_count {α : Type} (appargs : List Dict) (inputs : List α) :
    Except PyErr Unit :=
  match filter_input_appargs appargs with
  | .error e => .error e
  | .ok input_appargs =>
    if input_appargs.length < inputs.length then
      .error (.userError "At most %r inputs supported, but got %r."
        [toString input_appargs.length, toString inputs.length])
    else .ok ()

/-! ## KiveRun (runstate.py / kiverun.py) -/

/-- The `RunState` enum of runstate.py. -/
inductive RunState where
  | NEW
  | LOADING
  | RUNNING
  | SAVING
  | COMPLETE
  | FAILED
  | CANCELLED
  deriving DecidableEq, Repr

/-- `RunState(s)`: enum lookup by value; ValueError when `s` is not one of
the seven state codes. -/
def RunState.ofValue (s : String) : Except PyErr RunState :=
  if s = "N" then .ok .NEW
  else if s = "L" then .ok .LOADING
  else if s = "R" then .ok .RUNNING
  else if s = "S" then .ok .SAVING
  else if s = "C" then .ok .COMPLETE
  else if s = "F" then .ok .FAILED
  else if s = "X" then .ok .CANCELLED
  else .error (.valueError "is not a valid RunState")

/-- A `datetime.datetime`, identified by the ISO string it was parsed
from; the parsing itself (`datetime.fromisoformat`, which may raise
ValueError) is delegated to the standard library and supplied as the
parameter `fiso` below. -/
structure PyDateTime where
  iso : String
  deriving DecidableEq, Repr

/-- The frozen dataclass `KiveRun` of kiverun.py (field `original_raw`
is `_original_raw` in the source; `batch_name` is typed Optional in the
source but `from_json` always stores `str(raw["batch_name"])`, a
string). -/
structure KiveRun where
  original_raw : Dict
  id : RunId
  state : RunState
  start_time : Option PyDateTime
  end_time : Option PyDateTime
  name : String
  url : URL
  app_name : String
  batch_name : String
  dataset_list : URL

/-- kiverun.py lines 68-84: the field reads of `from_json` that follow the
timestamp handling, and the final construction. -/
def KiveRun.from_json_rest (up : String → Except PyErr SplitResult)
    (raw : Dict) (id : RunId) (state : RunState)
    (start_time end_time : Option PyDateTime) : Except PyErr KiveRun :=
  match dictLookup raw "name" with
  | Option.none => .error (.keyError "name")
  | some nameObj =>
    match dictLookup raw "url" with
    | Option.none => .error (.keyError "url")
    | some urlObj =>
      match URL.make up (pyStr urlObj) with
      | .error e => .error e
      | .ok url =>
        match dictLookup raw "app_name" with
        | Option.none => .error (.keyError "app_name")
        | some appObj =>
          match dictLookup raw "batch_name" with
          | Option.none => .error (.keyError "batch_name")
          | some batchObj =>
            match dictLookup raw "dataset_list" with
            | Option.none => .error (.keyError "dataset_list")
            | some dlObj =>
              match URL.make up (pyStr dlObj) with
              | .error e => .error e
              | .ok dataset_list =>
                .ok { original_raw := raw
                      id := id
                      state := state
                      start_time := start_time
                      end_time := end_time
                      name := pyStr nameObj
                      url := url
                      app_name := pyStr appObj
                      batch_name := pyStr batchObj
                      dataset_list := dataset_list }

/-- `KiveRun.from_json` (kiverun.py lines 49-84).

The decisive detail: `end_time_obj = raw["end_time"]` (line 61) sits
inside the `else` branch of the `start_time_obj is None` test, so when
`start_time` is null the local `end_time_obj` is never assigned and the
following `if end_time_obj is None` (line 62) raises UnboundLocalError.
`assert isinstance(id_obj, int)` becomes `assertionError` for non-integer
ids, and likewise for non-string timestamps. -/
def KiveRun.from_json (up : String → Except PyErr SplitResult)
    (fiso : String → Except PyErr PyDateTime) (raw : Dict) :
    Except PyErr KiveRun :=
  match dictLookup raw "id" with
  | Option.none => .error (.keyError "id")
  | some idObj =>
    match idObj with
    | J.int n =>
      match dictLookup raw "state" with
      | Option.none => .error (.keyError "state")
      | some stateObj =>
        match RunState.ofValue (pyStr stateObj) with
        | .error e => .error e
        | .ok state =>
          match dictLookup raw "start_time" with
          | Option.none => .error (.keyError "start_time")
          | some startObj =>
            match startObj with
            | J.null => .error (.unboundLocalError "end_time_obj")
            | J.str s =>
              match fiso s with
              | .error e => .error e
              | .ok startDt =>
                match dictLookup raw "end_time" with
                | Option.none => .error (.keyError "end_time")
                | some endObj =>
                  match endObj with
                  | J.null =>
                    KiveRun.from_json_rest up raw (RunId.make n) state
                      (some startDt) Option.none
                  | J.str s2 =>
                    match fiso s2 with
                    | .error e => .error e
                    | .ok endDt =>
                      KiveRun.from_json_rest up raw (RunId.make n) state
                        (some startDt) (some endDt)
                  | _ => .error .assertionError
            | _ => .error .assertionError
    | _ => .error .assertionError

/-! ## Concrete inputs used by witnesses -/

/-- A urlparse oracle for the witness: parses the one URL the witness
uses, and anything else to an empty scheme and netloc. -/
def exampleParse : String → Except PyErr SplitResult := fun v =>
  if v = "http://kive.example.com" then .ok ⟨"http", "kive.example.com"⟩
  else .ok ⟨"", ""⟩

/-- Successive poll responses for the poller witness: two active states,
then the completed run. -/
def examplePolls : List Dict :=
  [[("id", J.int 1), ("state", J.str "N")],
   [("id", J.int 1), ("state", J.str "R")],
   [("id", J.int 1), ("state", J.str "C")]]

/-- An oracle whose second page carries a non-iterable `results` value. -/
def exampleBadOracle : List FetchResponse :=
  [mkPage [J.int 1] "http://kive.example.com/api/containerruns/?page=2",
   .ok [("results", J.int 0)]]

/-- A `datetime.fromisoformat` oracle for the witnesses: accepts every
string. -/
def exampleFromIso : String → Except PyErr PyDateTime := fun s => .ok ⟨s⟩

/-- A run object whose `start_time` is null, as served for a run that has
not started yet. -/
def exampleNullStartRun : Dict :=
  [("id", J.int 4), ("state", J.str "L"), ("start_time", J.null),
   ("end_time", J.null), ("name", J.str "Free run"),
   ("url", J.str "http://kive.example.com/api/containerruns/4/"),
   ("app_name", J.str "main"), ("batch_name", J.null),
   ("dataset_list",
    J.str "http://kive.example.com/api/containerruns/4/dataset_list/")]

/-! ## Theorems -/

/-- Claim C3 (status: code_bug).  Evaluating `Dataset.update` on a
concrete purged dataset: the very first step of the described algorithm,
`build_search_query(md5=md5)` inside `iterate_isomorphic`, raises
TypeError because `finddatasets.build_search_query` declares `name` and
`page_size` as required parameters with no defaults.  The documented
search-and-return-first-non-purged behaviour is therefore unreachable: the
operation raises instead of returning a candidate or None. -/
theorem c3_update_raises_type_error :
    Dataset.update exampleDataset
      = .error (.typeError
          "build_search_query() missing required positional arguments") :=
  rfl

/-- Claim C6 (status: code_bug).  `RunId(-1)` and `DatasetId(-1)`
construct successfully, holding the negative value, because
`typing.NamedTuple` never invokes `__post_init__`; the validator as
written (embedded as `post_init`) would have rejected the value had it
been called. -/
theorem c6_negative_ids_accepted :
    RunId.make (-1) = ⟨-1⟩ ∧ DatasetId.make (-1) = ⟨-1⟩
    ∧ RunId.post_init (RunId.make (-1))
        = .error (.typeError "The id of the run cannot be negative.")
    ∧ DatasetId.post_init (DatasetId.make (-1))
        = .error (.typeError "The id of the dataset cannot be negative.") := by
  refine ⟨rfl, rfl, ?_, ?_⟩ <;> simp [RunId.post_init, DatasetId.post_init, RunId.make, DatasetId.make]

/-- Claim C5 (status: confirmed).  For every string whose parse (by the
delegated `urlparse`) yields both a scheme and a netloc, URL construction
succeeds and `str` wraps the original string in angle brackets; when the
parse lacks the scheme or the netloc, construction raises a UserError
carrying the string. -/
theorem c5_url_validation (up : String → Except PyErr SplitResult)
    (s : String) :
    (∀ p, up s = .ok p → p.scheme ≠ "" → p.netloc ≠ "" →
      URL.make up s = .ok ⟨s⟩ ∧ URL.toStr ⟨s⟩ = "<" ++ s ++ ">")
    ∧ (∀ p, up s = .ok p → (p.scheme = "" ∨ p.netloc = "") →
      ∃ fmt, URL.make up s = .error (.userError fmt [s])) := by
  constructor
  · intro p hp h1 h2
    exact ⟨by simp [URL.make, hp, h1, h2], rfl⟩
  · intro p hp h
    rcases h with h | h
    · exact ⟨"Argument %r is missing a scheme to be a URL.",
        by simp [URL.make, hp, h]⟩
    · by_cases hs : p.scheme = ""
      · exact ⟨"Argument %r is missing a scheme to be a URL.",
          by simp [URL.make, hp, hs]⟩
      · exact ⟨"Argument %r is missing a netloc to be a URL.",
          by simp [URL.make, hp, hs, h]⟩

/-- Witness for C5 at the concrete string "http://kive.example.com". -/
theorem c5_url_validation_witness :
    URL.make exampleParse "http://kive.example.com"
      = .ok ⟨"http://kive.example.com"⟩
    ∧ URL.toStr ⟨"http://kive.example.com"⟩
      = "<" ++ "http://kive.example.com" ++ ">" :=
  (c5_url_validation exampleParse "http://kive.example.com").1
    ⟨"http", "kive.example.com"⟩ rfl (by decide) (by decide)

/-- Claim C7 (status: confirmed).  The dispatcher: no arguments prints the
missing-arguments usage text on stderr and returns 1; `-h`/`--help`
prints the help text on stdout and returns 0; an unrecognized subcommand
prints the invalid-choice usage text on stderr and returns 1 (the
`SimpleReprStr` hypothesis restricts to program names on which the
embedded `repr` agrees with Python's). -/
theorem c7_dispatcher (subRun : String → List String → Int) :
    main subRun [] = ⟨1, "", PROGRAM_MISSING_MESSAGE⟩
    ∧ main subRun ["-h"] = ⟨0, HELP_MESSAGE, ""⟩
    ∧ main subRun ["--help"] = ⟨0, HELP_MESSAGE, ""⟩
    ∧ ∀ program arguments, program ∉ PROGRAMS → program ≠ "-h" →
        program ≠ "--help" → SimpleReprStr program →
        main subRun (program :: arguments)
          = ⟨1, "", PROGRAM_ERROR_MESSAGE program⟩ := by
  refine ⟨rfl, rfl, rfl, ?_⟩
  intro program arguments h1 h2 h3 _
  simp [main, h1, h2, h3]

/-- Witness for C7 at the unrecognized name "frobnicate" and the other
two concrete invocations. -/
theorem c7_dispatcher_witness :
    main (fun _ _ => 0) ["frobnicate"]
      = ⟨1, "", PROGRAM_ERROR_MESSAGE "frobnicate"⟩
    ∧ main (fun _ _ => 0) ["-h"] = ⟨0, HELP_MESSAGE, ""⟩
    ∧ main (fun _ _ => 0) [] = ⟨1, "", PROGRAM_MISSING_MESSAGE⟩ :=
  ⟨(c7_dispatcher (fun _ _ => 0)).2.2.2 "frobnicate" [] (by decide)
      (by decide) (by decide) (by decide),
   (c7_dispatcher (fun _ _ => 0)).2.1,
   (c7_dispatcher (fun _ _ => 0)).1⟩

/-- Claim C8 (status: confirmed).  The tail of runkive's `main` returns 0
exactly when the awaited run's state is the success code "C", and a
failed ("F") or cancelled ("X") terminal state yields the return value 1
rather than an exception. -/
theorem c8_exit_status (run : Dict) (s : String)
    (h : dictLookup run "state" = some (J.str s)) :
    (runkive_exit_code run = .ok 0 ↔ s = "C")
    ∧ (s = "F" ∨ s = "X" → runkive_exit_code run = .ok 1) := by
  constructor
  · constructor
    · intro hok
      by_contra hne
      simp [runkive_exit_code, h, hne] at hok
    · intro hs
      simp [runkive_exit_code, h, hs]
  · intro hs
    rcases hs with hs | hs <;> subst hs <;> simp [runkive_exit_code, h]

/-- Witness for C8 on a completed and on a failed run. -/
theorem c8_exit_status_witness :
    runkive_exit_code [("state", J.str "C")] = .ok 0
    ∧ runkive_exit_code [("state", J.str "F")] = .ok 1 :=
  ⟨(c8_exit_status [("state", J.str "C")] "C" rfl).1.mpr rfl,
   (c8_exit_status [("state", J.str "F")] "F" rfl).2 (Or.inl rfl)⟩

/-- Claim C9 (status: confirmed).  When the supplied inputs outnumber the
app's input arguments (the elements of the argument list with type "I"),
run submission fails with the documented UserError; the check sits before
the `containerruns.post` call, so no run is submitted. -/
theorem c9_too_many_inputs {α : Type} (appargs : List Dict)
    (inputs : List α) (ia : List Dict)
    (hia : filter_input_appargs appargs = .ok ia)
    (hgt : ia.length < inputs.length) :
    check_input_count appargs inputs
      = .error (.userError "At most %r inputs supported, but got %r."
          [toString ia.length, toString inputs.length]) := by
  simp [check_input_count, hia, hgt]

/-- Witness for C9: one declared input argument, two supplied inputs. -/
theorem c9_too_many_inputs_witness :
    check_input_count [[("type", J.str "I")]] ["a.csv", "b.csv"]
      = .error (.userError "At most %r inputs supported, but got %r."
          ["1", "2"]) :=
  c9_too_many_inputs [[("type", J.str "I")]] ["a.csv", "b.csv"]
    [[("type", J.str "I")]] rfl (by decide)

/-- Claim C10 (status: confirmed).  When a run object's `start_time` is
null (and its id and state are well-formed, so that execution reaches the
timestamp handling), `KiveRun.from_json` raises UnboundLocalError on
`end_time_obj` instead of building a run with `start_time = None`; and
whenever `from_json` returns a run at all, the raw object's `start_time`
was not null. -/
theorem c10_from_json_null_start :
    (∀ (up : String → Except PyErr SplitResult)
       (fiso : String → Except PyErr PyDateTime) (raw : Dict)
       (n : Int) (st : String) (rs : RunState),
       dictLookup raw "id" = some (J.int n) →
       dictLookup raw "state" = some (J.str st) →
       RunState.ofValue st = .ok rs →
       dictLookup raw "start_time" = some J.null →
       KiveRun.from_json up fiso raw
         = .error (.unboundLocalError "end_time_obj"))
    ∧ (∀ (up : String → Except PyErr SplitResult)
         (fiso : String → Except PyErr PyDateTime) (raw : Dict)
         (r : KiveRun),
       KiveRun.from_json up fiso raw = .ok r →
       dictLookup raw "start_time" ≠ some J.null) := by
  constructor
  · intro up fiso raw n st rs hid hstate hrs hstart
    simp [KiveRun.from_json, hid, hstate, pyStr, hrs, hstart]
  · intro up fiso raw r hok hnull
    unfold KiveRun.from_json at hok
    rw [hnull] at hok
    repeat' split at hok
    all_goals simp_all

/-- Witness for C10 at a concrete not-yet-started run object. -/
theorem c10_from_json_null_start_witness :
    KiveRun.from_json exampleParse exampleFromIso exampleNullStartRun
      = .error (.unboundLocalError "end_time_obj") :=
  c10_from_json_null_start.1 exampleParse exampleFromIso
    exampleNullStartRun 4 "L" RunState.LOADING rfl rfl rfl rfl

/-- Claim C1 (status: confirmed).  Feeding the poller the successive
states fetched for a run, of which the one at index `k` is the first
outside the active set: polling stops exactly there, the run fetched at
index `k` is returned, and `time.sleep` ran `k` times (once after every
active-state fetch, i.e. between each pair of consecutive fetches), each
sleep lasting the fixed `INTERVAL` = 1 second. -/
theorem c1_await_stops_at_first_terminal (polls : List Dict)
    (states : List String) (k : Nat)
    (hmap : polls.map (fun r => dictLookup r "state")
      = states.map (fun s => some (J.str s)))
    (hk : k < states.length)
    (hterm : ∀ s, states.get? k = some s → s ∉ ACTIVE_STATES)
    (hactive : ∀ s ∈ states.take k, s ∈ ACTIVE_STATES) :
    INTERVAL = 1 ∧ ∃ run, polls.get? k = some run
      ∧ await_containerrun polls = .ok (run, k) := by
  refine ⟨rfl, ?_⟩
  induction polls generalizing states k with
  | nil =>
    cases states with
    | nil => exact absurd hk (by simp)
    | cons s srest => exact absurd hmap (by simp)
  | cons r rest ih =>
    cases states with
    | nil => exact absurd hmap (by simp)
    | cons s srest =>
      simp only [List.map_cons] at hmap
      injection hmap with h1 h2
      cases k with
      | zero =>
        have hs : s ∉ ACTIVE_STATES := hterm s rfl
        refine ⟨r, rfl, ?_⟩
        unfold await_containerrun
        rw [h1]
        simp [hs]
      | succ k =>
        have hsA : s ∈ ACTIVE_STATES := hactive s (by simp)
        have hk2 : k < srest.length := by simpa using hk
        obtain ⟨run, hget, hawait⟩ :=
          ih srest k h2 hk2 (fun s2 hs2 => hterm s2 (by simpa using hs2))
            (fun s2 hs2 => hactive s2 (by simp [hs2]))
        refine ⟨run, by simpa using hget, ?_⟩
        unfold await_containerrun
        rw [h1]
        simp [hsA, hawait]

/-- Witness for C1 at the concrete poll sequence N, R, C. -/
theorem c1_await_stops_at_first_terminal_witness :
    INTERVAL = 1 ∧ ∃ run, examplePolls.get? 2 = some run
      ∧ await_containerrun examplePolls = .ok (run, 2) :=
  c1_await_stops_at_first_terminal examplePolls ["N", "R", "C"] 2 rfl
    (by decide)
    (fun s hs => by
      have h2 : s = "C" := by
        simp [List.get?] at hs
        exact hs.symm
      subst h2
      decide)
    (by decide)

/-- When every element converts, the yield loop produces the converted
list and no exception. -/
theorem convertElems_all_ok {β : Type} (f : J → Except PyErr β)
    (g : J → β) (xs : List J) (h : ∀ x ∈ xs, f x = .ok (g x)) :
    convertElems f xs = (xs.map g, Option.none) := by
  induction xs with
  | nil => rfl
  | cons x rest ih =>
    simp [convertElems, h x (by simp),
      ih (fun y hy => h y (by simp [hy]))]

/-- Claim C2 (status: confirmed).  Pages whose `results` arrays all
convert, each non-final page carrying a nonempty `next` link and the final
page none: the generator yields exactly the concatenation of all pages'
results in order, converted, ends without raising, and never fetches
beyond the final page (whatever further responses `junk` would hold). -/
theorem c2_fetch_paginated_concat (β : Type) (f : J → Except PyErr β)
    (g : J → β) (pages : List (List J × String)) (lastResults : List J)
    (junk : List FetchResponse)
    (hnext : ∀ p ∈ pages, p.2 ≠ "")
    (hconv : ∀ x ∈ pages.flatMap Prod.fst ++ lastResults, f x = .ok (g x)) :
    fetch_paginated_results f
        (pages.map (fun p => mkPage p.1 p.2)
          ++ (mkLastPage lastResults :: junk))
      = ⟨(pages.flatMap Prod.fst ++ lastResults).map g, Option.none⟩ := by
  induction pages with
  | nil =>
    have hc := convertElems_all_ok f g lastResults
      (fun x hx => hconv x (by simpa using hx))
    simp [fetch_paginated_results, mkLastPage, dictLookup, pyIter, hc]
  | cons p ps ih =>
    have hp2 : p.2 ≠ "" := hnext p (by simp)
    have hc := convertElems_all_ok f g p.1
      (fun x hx => hconv x
        (by simp [List.flatMap_cons, List.mem_append, hx]))
    have ih2 := ih (fun q hq => hnext q (by simp [hq]))
      (fun x hx => hconv x (by
        simp only [List.flatMap_cons, List.append_assoc,
          List.mem_append] at hx ⊢
        tauto))
    simp only [mkPage] at ih2
    simp [fetch_paginated_results, mkPage, dictLookup, pyIter, hc,
      truthy, hp2, ih2]

/-- Witness for C2: two pages with two and one results. -/
theorem c2_fetch_paginated_concat_witness :
    fetch_paginated_results (fun j => Except.ok j)
        [mkPage [J.int 1, J.int 2] "http://kive.example.com/?page=2",
         mkLastPage [J.int 3], FetchResponse.serverError]
      = ⟨[J.int 1, J.int 2, J.int 3], Option.none⟩ :=
  c2_fetch_paginated_concat J (fun j => Except.ok j) id
    [([J.int 1, J.int 2], "http://kive.example.com/?page=2")] [J.int 3]
    [FetchResponse.serverError] (by decide) (fun x _ => rfl)

/-- Counterexample to claim C4 as stated: a second page that lacks the
expected structure — its `results` value is the integer 0 rather than an
array — makes the generator raise TypeError to the caller (only
`KeyError` and the two Kive exceptions are caught), instead of ending the
iteration silently after yielding page 1. -/
theorem c4_counterexample_structure_raises :
    (fetch_paginated_results (fun j => Except.ok j) exampleBadOracle).yielded
      = [J.int 1]
    ∧ (fetch_paginated_results (fun j => Except.ok j)
        exampleBadOracle).raised
      = some (.typeError "object is not iterable") :=
  ⟨rfl, rfl⟩

/-- Claim C4 as amended (status: corrected).  When fetching page k+1
raises a server or client exception of the wrapped client, or page k+1
lacks the `results` key (the KeyError case the loop catches), the
generator yields exactly the converted elements of pages 1..k and ends
without raising; a structurally malformed `results` value that is present
but not iterable instead propagates a TypeError (see the
counterexample). -/
theorem c4_failure_yields_prefix (β : Type) (f : J → Except PyErr β)
    (g : J → β) (pages : List (List J × String)) (bad : FetchResponse)
    (junk : List FetchResponse)
    (hnext : ∀ p ∈ pages, p.2 ≠ "")
    (hconv : ∀ x ∈ pages.flatMap Prod.fst, f x = .ok (g x))
    (hbad : bad = FetchResponse.serverError
      ∨ bad = FetchResponse.clientError
      ∨ ∃ d, bad = FetchResponse.ok d
          ∧ dictLookup d "results" = Option.none) :
    fetch_paginated_results f
        (pages.map (fun p => mkPage p.1 p.2) ++ (bad :: junk))
      = ⟨(pages.flatMap Prod.fst).map g, Option.none⟩ := by
  induction pages with
  | nil =>
    rcases hbad with hb | hb | ⟨d, hb, hres⟩ <;> subst hb
    · simp [fetch_paginated_results]
    · simp [fetch_paginated_results]
    · simp [fetch_paginated_results, hres]
  | cons p ps ih =>
    have hp2 : p.2 ≠ "" := hnext p (by simp)
    have hc := convertElems_all_ok f g p.1
      (fun x hx => hconv x
        (by simp [List.flatMap_cons, List.mem_append, hx]))
    have ih2 := ih (fun q hq => hnext q (by simp [hq]))
      (fun x hx => hconv x (by
        simp only [List.flatMap_cons, List.mem_append] at hx ⊢
        tauto))
    simp only [mkPage] at ih2
    simp [fetch_paginated_results, mkPage, dictLookup, pyIter, hc,
      truthy, hp2, ih2]

/-- Witness for the amended C4: one good page, then a server exception. -/
theorem c4_failure_yields_prefix_witness :
    fetch_paginated_results (fun j => Except.ok j)
        [mkPage [J.int 5] "http://kive.example.com/?page=2",
         FetchResponse.serverError]
      = ⟨[J.int 5], Option.none⟩ :=
  c4_failure_yields_prefix J (fun j => Except.ok j) id
    [([J.int 5], "http://kive.example.com/?page=2")]
    FetchResponse.serverError [] (by decide) (fun x _ => rfl)
    (Or.inl rfl)

end Kivecli
